import Mathlib

/-!
Shallow embedding of the Kagent dashboard front-end (React single-page
application).  JavaScript numbers are modelled as exact rationals `ℚ`,
JavaScript strings as `String`, arrays as `List`, plain objects as Lean
structures, and `null`/absent fields as `Option`.  Fallible network calls
are modelled as `Except Unit` results consumed by explicit state-transition
functions.  Every definition is translated from the corresponding source
file of the repository; the source location is recorded in its doc comment.
-/

/-- Model of JavaScript `Math.round`: round half towards positive infinity. -/
def jsRound (q : ℚ) : ℤ := ⌊q + 1 / 2⌋

/-- Model of JavaScript `Number.prototype.toFixed(1)` on an exact rational:
the number of tenths after rounding.  ECMA-262 first takes the absolute
value (recording the sign), then picks the integer `n` with `n / 10` closest
to the value, preferring the larger `n` on ties. -/
def jsToFixedTenths (q : ℚ) : ℤ :=
  if q < 0 then -⌊(-q) * 10 + 1 / 2⌋ else ⌊q * 10 + 1 / 2⌋

/-- Render a signed number of tenths as a decimal string with one digit
after the point, as `toFixed(1)` does. -/
def tenthsToString (t : ℤ) : String :=
  (if t < 0 then "-" else "") ++ toString (t.natAbs / 10) ++ "." ++ toString (t.natAbs % 10)

/-- Model of `x.toFixed(1)` producing the rendered string. -/
def jsToFixed1 (q : ℚ) : String := tenthsToString (jsToFixedTenths q)

/-- Cost optimization record, from the mock-data shape in
`frontend/src/pages/CostOptimizer.js` (lines 15-66). -/
structure Optimization where
  id : Nat
  resource : String
  type : String
  recommendation : String
  currentCost : ℚ
  potentialCost : ℚ
  savings : ℚ
  severity : String
deriving DecidableEq, Repr

/-- Hard-coded five-element mock list from `CostOptimizer.js` lines 15-66. -/
def mockOptimizations : List Optimization :=
  [ { id := 1, resource := "nginx-test-7f8bcbcf44-5zxkq", type := "cpu",
      recommendation := "Reduce CPU limit from 500m to 250m",
      currentCost := 15.40, potentialCost := 7.70, savings := 7.70, severity := "high" },
    { id := 2, resource := "prometheus-server-b88bf7978-pjl8g", type := "memory",
      recommendation := "Reduce memory request from 512Mi to 256Mi",
      currentCost := 12.80, potentialCost := 6.40, savings := 6.40, severity := "medium" },
    { id := 3, resource := "prometheus-alertmanager-0", type := "pod",
      recommendation := "Scale down replicas from 3 to 2",
      currentCost := 18.50, potentialCost := 12.33, savings := 6.17, severity := "medium" },
    { id := 4, resource := "kagent-cluster-worker2", type := "node",
      recommendation := "Consider downsizing node type",
      currentCost := 70.00, potentialCost := 50.00, savings := 20.00, severity := "high" },
    { id := 5, resource := "prometheus-kube-state-metrics-66858d7dfd-phczq", type := "storage",
      recommendation := "Use cheaper storage class for PVC",
      currentCost := 8.20, potentialCost := 4.10, savings := 4.10, severity := "low" } ]

/-- Savings summary state of the Cost Optimizer page
(`CostOptimizer.js` lines 6-10 and 73-77); the code stores the percentage
already rendered by `toFixed(1)`, hence a string. -/
structure SavingsSummary where
  current : ℚ
  potential : ℚ
  percentage : String
deriving DecidableEq, Repr

/-- Translation of `mockOptimizations.reduce((sum, item) => sum + item.currentCost, 0)`
(`CostOptimizer.js` line 68). -/
def totalCurrentCost (optimizations : List Optimization) : ℚ :=
  optimizations.foldl (fun sum item => sum + item.currentCost) 0

/-- Translation of `mockOptimizations.reduce((sum, item) => sum + item.potentialCost, 0)`
(`CostOptimizer.js` line 69). -/
def totalPotentialCost (optimizations : List Optimization) : ℚ :=
  optimizations.foldl (fun sum item => sum + item.potentialCost) 0

/-- Savings-summary computation of the Cost Optimizer timer callback
(`CostOptimizer.js` lines 68-77):
`percentage = ((totalCurrent - totalPotential) / totalCurrent) * 100`,
stored via `percentage.toFixed(1)`. -/
def computeSavingsSummary (optimizations : List Optimization) : SavingsSummary :=
  let totalCurrent := totalCurrentCost optimizations
  let totalPotential := totalPotentialCost optimizations
  let percentage := ((totalCurrent - totalPotential) / totalCurrent) * 100
  { current := totalCurrent, potential := totalPotential, percentage := jsToFixed1 percentage }

theorem foldl_add_eq_sum_map (f : Optimization → ℚ) :
    ∀ (l : List Optimization) (a : ℚ), l.foldl (fun sum item => sum + f item) a = a + (l.map f).sum := by
  intro l
  induction l with
  | nil => intro a; simp
  | cons x t ih => intro a; simp [List.foldl_cons, ih]; ring

theorem totalCurrentCost_mock : totalCurrentCost mockOptimizations = 124.9 := by
  simp only [totalCurrentCost, mockOptimizations, List.foldl]
  norm_num

theorem totalPotentialCost_mock : totalPotentialCost mockOptimizations = 80.53 := by
  simp only [totalPotentialCost, mockOptimizations, List.foldl]
  norm_num

theorem jsToFixed1_mock_percentage : jsToFixed1 (((124.9 - 80.53) / 124.9) * 100) = "35.5" := by
  have h : jsToFixedTenths (((124.9 - 80.53) / 124.9) * 100) = 355 := by
    rw [jsToFixedTenths]
    norm_num
  rw [jsToFixed1, h]
  rfl

/-- C1: on the Cost Optimizer page the savings percentage is
`(current - potential) / current * 100` over the sums of the `currentCost`
and `potentialCost` fields; for every optimization list with non-zero total
current cost the stored `savingsSummary.percentage` is exactly this value
rendered to one decimal place, and on the hard-coded five-element mock list
the summary is `current = 124.9`, `potential = 80.53`, `percentage = "35.5"`. -/
theorem costOptimizer_savings_percentage :
    (∀ opts : List Optimization,
        (opts.map Optimization.currentCost).sum ≠ 0 →
        (computeSavingsSummary opts).percentage =
          jsToFixed1 ((((opts.map Optimization.currentCost).sum -
              (opts.map Optimization.potentialCost).sum) /
              (opts.map Optimization.currentCost).sum) * 100))
    ∧ mockOptimizations.length = 5
    ∧ computeSavingsSummary mockOptimizations =
        { current := 124.9, potential := 80.53, percentage := "35.5" } := by
  refine ⟨?_, rfl, ?_⟩
  · intro opts _
    simp [computeSavingsSummary, totalCurrentCost, totalPotentialCost, foldl_add_eq_sum_map]
  · have h1 := totalCurrentCost_mock
    have h2 := totalPotentialCost_mock
    simp only [computeSavingsSummary, h1, h2, SavingsSummary.mk.injEq]
    exact ⟨trivial, trivial, jsToFixed1_mock_percentage⟩

/-- Witness for C1 at the mock list: the total current cost is non-zero and
the stored percentage is the rendered formula value. -/
theorem costOptimizer_savings_percentage_witness :
    (mockOptimizations.map Optimization.currentCost).sum ≠ 0 ∧
    (computeSavingsSummary mockOptimizations).percentage =
      jsToFixed1 ((((mockOptimizations.map Optimization.currentCost).sum -
          (mockOptimizations.map Optimization.potentialCost).sum) /
          (mockOptimizations.map Optimization.currentCost).sum) * 100) := by
  have h : (mockOptimizations.map Optimization.currentCost).sum ≠ 0 := by
    simp only [mockOptimizations, List.map, List.sum_cons, List.sum_nil]
    norm_num
  exact ⟨h, costOptimizer_savings_percentage.1 mockOptimizations h⟩

/-- Security issue record, from the mock-data shape in the Security Scanner
page (`SecurityScanner` component, mock issues lines 522-568). -/
structure SecurityIssue where
  id : Nat
  type : String
  severity : String
  resource : String
  description : String
  remediation : String
  detected : String
deriving DecidableEq, Repr

/-- Hard-coded five-element mock list of the Security Scanner page. -/
def mockSecurityIssues : List SecurityIssue :=
  [ { id := 1, type := "vulnerability", severity := "critical",
      resource := "nginx-test deployment",
      description := "Container using outdated image with known vulnerabilities",
      remediation := "Update to latest version", detected := "2025-05-12T12:00:00Z" },
    { id := 2, type := "misconfiguration", severity := "high",
      resource := "prometheus-server pod",
      description := "Container running with privileged access",
      remediation := "Remove privileged flag from pod spec", detected := "2025-05-12T12:10:00Z" },
    { id := 3, type := "compliance", severity := "medium",
      resource := "default namespace",
      description := "Resources without resource limits",
      remediation := "Define resource limits for all containers", detected := "2025-05-12T12:15:00Z" },
    { id := 4, type := "vulnerability", severity := "high",
      resource := "prometheus-alertmanager pod",
      description := "Known vulnerability in base image",
      remediation := "Update base image and rebuild", detected := "2025-05-12T12:20:00Z" },
    { id := 5, type := "misconfiguration", severity := "low",
      resource := "kube-state-metrics deployment",
      description := "Service account with excessive permissions",
      remediation := "Limit service account permissions", detected := "2025-05-12T12:25:00Z" } ]

/-- Translation of the Security Scanner filter
(`securityIssues.filter(issue => { if (filter === 'all') return true; return issue.type === filter; })`). -/
def filteredIssues (securityIssues : List SecurityIssue) (filter : String) : List SecurityIssue :=
  securityIssues.filter (fun issue => if filter == "all" then true else issue.type == filter)

/-- Remediation action record, from the mock-data shape in
`frontend/src/pages/RemediatorAgent.js` lines 12-82; the fields present only
on executed actions are modelled as `Option`. -/
structure RemediationAction where
  id : String
  status : String
  issue : String
  description : String
  severity : String
  timestamp : String
  resource : String
  resourceType : String
  remediation : String
  autoRemediate : Bool
  executedAt : Option String := none
  result : Option String := none
  details : Option String := none
deriving DecidableEq, Repr

/-- Hard-coded five-element mock list from `RemediatorAgent.js` lines 12-82. -/
def mockActions : List RemediationAction :=
  [ { id := "action-001", status := "pending",
      issue := "High CPU usage on node kagent-cluster-worker",
      description := "CPU usage at 92%, exceeding threshold of 80%",
      severity := "critical", timestamp := "2025-05-12T12:40:00Z",
      resource := "kagent-cluster-worker", resourceType := "Node",
      remediation := "Evict non-critical pods to reduce load", autoRemediate := true },
    { id := "action-002", status := "completed",
      issue := "Memory pressure on node kagent-cluster-worker2",
      description := "Memory usage at 85%, exceeding threshold of 80%",
      severity := "high", timestamp := "2025-05-12T12:35:00Z",
      resource := "kagent-cluster-worker2", resourceType := "Node",
      remediation := "Evicted pods with lower priority", autoRemediate := true,
      executedAt := some "2025-05-12T12:36:00Z", result := some "success",
      details := some "Evicted 3 pods to reduce memory pressure" },
    { id := "action-003", status := "failed",
      issue := "Pod restart loop for nginx-test-7f8bcbcf44-5zxkq",
      description := "Pod has restarted 5 times in the last 15 minutes",
      severity := "high", timestamp := "2025-05-12T12:30:00Z",
      resource := "nginx-test-7f8bcbcf44-5zxkq", resourceType := "Pod",
      remediation := "Delete and recreate pod", autoRemediate := true,
      executedAt := some "2025-05-12T12:31:00Z", result := some "failure",
      details := some "Failed to delete pod: permission denied" },
    { id := "action-004", status := "pending",
      issue := "Service endpoint mismatch for prometheus-server",
      description := "Service has no matching endpoints",
      severity := "medium", timestamp := "2025-05-12T12:25:00Z",
      resource := "prometheus-server", resourceType := "Service",
      remediation := "Recreate service with correct selector", autoRemediate := false },
    { id := "action-005", status := "completed",
      issue := "ConfigMap prometheus-alertmanager out of sync",
      description := "ConfigMap data does not match desired state",
      severity := "low", timestamp := "2025-05-12T12:20:00Z",
      resource := "prometheus-alertmanager", resourceType := "ConfigMap",
      remediation := "Update ConfigMap with correct data", autoRemediate := true,
      executedAt := some "2025-05-12T12:21:00Z", result := some "success",
      details := some "ConfigMap updated successfully" } ]

/-- Translation of `RemediatorAgent.getFilteredActions`
(`RemediatorAgent.js` lines 123-131). -/
def getFilteredActions (actions : List RemediationAction) (activeTab : String) : List RemediationAction :=
  if activeTab == "all" then actions
  else actions.filter (fun action =>
    if activeTab == "pending" then action.status == "pending"
    else if activeTab == "completed" then action.status == "completed"
    else if activeTab == "failed" then action.status == "failed"
    else true)

/-- C2: tab-based filtering selects records by exact equality on a
status/type field.  On the Security Scanner page `filteredIssues` is the
whole list for the filter `all` and otherwise exactly the issues whose
`type` equals the filter; on the Remediator page `getFilteredActions`
returns all actions for the tab `all` and otherwise exactly the actions
whose `status` equals the active tab, for the tabs `pending`, `completed`
and `failed`. -/
theorem tab_filtering_exact_equality :
    (∀ securityIssues : List SecurityIssue, filteredIssues securityIssues "all" = securityIssues)
    ∧ (∀ (securityIssues : List SecurityIssue) (filter : String), filter ≠ "all" →
        filteredIssues securityIssues filter =
          securityIssues.filter (fun issue => issue.type == filter))
    ∧ (∀ actions : List RemediationAction, getFilteredActions actions "all" = actions)
    ∧ (∀ (actions : List RemediationAction) (activeTab : String),
        activeTab = "pending" ∨ activeTab = "completed" ∨ activeTab = "failed" →
        getFilteredActions actions activeTab =
          actions.filter (fun action => action.status == activeTab)) := by
  refine ⟨?_, ?_, ?_, ?_⟩
  · intro securityIssues
    simp [filteredIssues]
  · intro securityIssues filter h
    simp only [filteredIssues]
    refine List.filter_congr ?_
    intro issue _
    simp [beq_iff_eq, h]
  · intro actions
    simp [getFilteredActions]
  · intro actions activeTab h
    rcases h with rfl | rfl | rfl <;> simp [getFilteredActions]

/-- Witness for C2 at the mock lists with the filter `vulnerability` and the
tab `pending`. -/
theorem tab_filtering_exact_equality_witness :
    ("vulnerability" : String) ≠ "all"
    ∧ filteredIssues mockSecurityIssues "vulnerability" =
        mockSecurityIssues.filter (fun issue => issue.type == "vulnerability")
    ∧ (("pending" : String) = "pending" ∨ ("pending" : String) = "completed" ∨
        ("pending" : String) = "failed")
    ∧ getFilteredActions mockActions "pending" =
        mockActions.filter (fun action => action.status == "pending") :=
  ⟨by decide,
   tab_filtering_exact_equality.2.1 mockSecurityIssues "vulnerability" (by decide),
   Or.inl rfl,
   tab_filtering_exact_equality.2.2.2 mockActions "pending" (Or.inl rfl)⟩

/-- View state of the Security Scanner page (`useState` hooks of the
`SecurityScanner` component). -/
structure SecurityScannerState where
  securityIssues : List SecurityIssue
  loading : Bool
  filter : String
deriving Repr

/-- Translation of the Security Scanner 1000 ms timer callback:
`setSecurityIssues(mockIssues); setLoading(false)`. -/
def securityScannerTick (s : SecurityScannerState) : SecurityScannerState :=
  { s with securityIssues := mockSecurityIssues, loading := false }

/-- Backup record, from the mock-data shape of the Backup Manager page. -/
structure BackupRecord where
  id : String
  name : String
  status : String
  timestamp : String
  resources : Nat
  size : String
  «namespace» : String
deriving DecidableEq, Repr

/-- Restore record, from the mock-data shape of the Backup Manager page. -/
structure RestoreRecord where
  id : String
  name : String
  status : String
  timestamp : String
  resources : Nat
  sourceBackup : String
  «namespace» : String
deriving DecidableEq, Repr

/-- Kubernetes resource reference used by the Backup Manager selection list. -/
structure Resource where
  kind : String
  name : String
  «namespace» : String
deriving DecidableEq, Repr

/-- Hard-coded five-element mock backup list of the Backup Manager page. -/
def mockBackups : List BackupRecord :=
  [ { id := "backup-001", name := "daily-backup-20250511", status := "completed",
      timestamp := "2025-05-11T23:00:00Z", resources := 42, size := "56 MB",
      «namespace» := "default" },
    { id := "backup-002", name := "daily-backup-20250510", status := "completed",
      timestamp := "2025-05-10T23:00:00Z", resources := 42, size := "55 MB",
      «namespace» := "default" },
    { id := "backup-003", name := "weekly-backup-20250505", status := "completed",
      timestamp := "2025-05-05T22:00:00Z", resources := 68, size := "102 MB",
      «namespace» := "all" },
    { id := "backup-004", name := "custom-nginx-backup", status := "completed",
      timestamp := "2025-05-09T14:30:00Z", resources := 5, size := "8 MB",
      «namespace» := "default" },
    { id := "backup-005", name := "pre-update-backup", status := "completed",
      timestamp := "2025-05-07T09:15:00Z", resources := 36, size := "48 MB",
      «namespace» := "kube-system" } ]

/-- Hard-coded mock restore list of the Backup Manager page. -/
def mockRestores : List RestoreRecord :=
  [ { id := "restore-001", name := "restore-after-issue", status := "completed",
      timestamp := "2025-05-11T10:22:00Z", resources := 15,
      sourceBackup := "daily-backup-20250510", «namespace» := "default" },
    { id := "restore-002", name := "test-restore-procedure", status := "completed",
      timestamp := "2025-05-09T15:45:00Z", resources := 5,
      sourceBackup := "custom-nginx-backup", «namespace» := "default" },
    { id := "restore-003", name := "rollback-faulty-update", status := "completed",
      timestamp := "2025-05-08T11:30:00Z", resources := 36,
      sourceBackup := "pre-update-backup", «namespace» := "kube-system" } ]

/-- Hard-coded mock namespace list of the Backup Manager page. -/
def mockNamespaces : List String :=
  ["default", "kube-system", "monitoring", "ingress-nginx"]

/-- Hard-coded initially selected resources of the Backup Manager page. -/
def mockSelectedResources : List Resource :=
  [ { kind := "Deployment", name := "nginx-test", «namespace» := "default" },
    { kind := "Service", name := "nginx-test", «namespace» := "default" },
    { kind := "ConfigMap", name := "prometheus-server", «namespace» := "default" } ]

/-- View state of the Backup Manager page (`useState` hooks of the
`BackupManager` component). -/
structure BackupManagerState where
  backups : List BackupRecord
  restores : List RestoreRecord
  loading : Bool
  selectedResources : List Resource
  backupName : String
  namespaces : List String
  selectedNamespace : String
deriving Repr

/-- Translation of the Backup Manager 1000 ms timer callback:
`setBackups(mockBackups); setRestores(mockRestores); setNamespaces(mockNamespaces);
setSelectedResources(mockSelectedResources); setLoading(false)`. -/
def backupManagerTick (s : BackupManagerState) : BackupManagerState :=
  { s with backups := mockBackups, restores := mockRestores,
           namespaces := mockNamespaces, selectedResources := mockSelectedResources,
           loading := false }

/-- C4: the 1000 ms mock timers replace records wholesale.  Whatever the
previous state, the Security Scanner tick sets `securityIssues` to exactly
the fixed five-element mock array and clears `loading`, and the Backup
Manager tick replaces `backups`, `restores`, `namespaces` and
`selectedResources` with their fixed mock arrays and clears `loading`. -/
theorem mock_timer_wholesale_replacement :
    (∀ s : SecurityScannerState,
        (securityScannerTick s).securityIssues = mockSecurityIssues
        ∧ (securityScannerTick s).loading = false)
    ∧ mockSecurityIssues.length = 5
    ∧ (∀ s : BackupManagerState,
        (backupManagerTick s).backups = mockBackups
        ∧ (backupManagerTick s).restores = mockRestores
        ∧ (backupManagerTick s).namespaces = mockNamespaces
        ∧ (backupManagerTick s).selectedResources = mockSelectedResources
        ∧ (backupManagerTick s).loading = false) :=
  ⟨fun _ => ⟨rfl, rfl⟩, rfl, fun _ => ⟨rfl, rfl, rfl, rfl, rfl⟩⟩

/-- Translation of `RemediatorAgent.handleExecuteAction`
(`RemediatorAgent.js` lines 89-99): map over the actions, replacing the
status of the action whose id matches by `in-progress` via object spread. -/
def handleExecuteAction (actions : List RemediationAction) (actionId : String) :
    List RemediationAction :=
  actions.map (fun action =>
    if action.id == actionId then { action with status := "in-progress" } else action)

/-- C8: `handleExecuteAction` preserves length and order; at every position
whose action's id equals the given id the result holds that action with its
status set to `in-progress` and every other field unchanged, and at every
other position the action is entirely unchanged. -/
theorem handleExecuteAction_pointwise :
    ∀ (actions : List RemediationAction) (actionId : String),
      (handleExecuteAction actions actionId).length = actions.length
      ∧ (∀ (i : Nat) (action : RemediationAction), actions[i]? = some action →
          action.id = actionId →
          (handleExecuteAction actions actionId)[i]? =
            some { action with status := "in-progress" })
      ∧ (∀ (i : Nat) (action : RemediationAction), actions[i]? = some action →
          action.id ≠ actionId →
          (handleExecuteAction actions actionId)[i]? = some action)
      ∧ (∀ action : RemediationAction,
          ({ action with status := "in-progress" } : RemediationAction).status = "in-progress"
          ∧ ({ action with status := "in-progress" } : RemediationAction).id = action.id
          ∧ ({ action with status := "in-progress" } : RemediationAction).issue = action.issue
          ∧ ({ action with status := "in-progress" } : RemediationAction).description = action.description
          ∧ ({ action with status := "in-progress" } : RemediationAction).severity = action.severity
          ∧ ({ action with status := "in-progress" } : RemediationAction).timestamp = action.timestamp
          ∧ ({ action with status := "in-progress" } : RemediationAction).resource = action.resource
          ∧ ({ action with status := "in-progress" } : RemediationAction).resourceType = action.resourceType
          ∧ ({ action with status := "in-progress" } : RemediationAction).remediation = action.remediation
          ∧ ({ action with status := "in-progress" } : RemediationAction).autoRemediate = action.autoRemediate
          ∧ ({ action with status := "in-progress" } : RemediationAction).executedAt = action.executedAt
          ∧ ({ action with status := "in-progress" } : RemediationAction).result = action.result
          ∧ ({ action with status := "in-progress" } : RemediationAction).details = action.details) := by
  intro actions actionId
  refine ⟨List.length_map _ _, ?_, ?_, ?_⟩
  · intro i action hi hid
    simp [handleExecuteAction, List.getElem?_map, hi, hid]
  · intro i action hi hid
    simp [handleExecuteAction, List.getElem?_map, hi, hid]
  · intro action
    exact ⟨rfl, rfl, rfl, rfl, rfl, rfl, rfl, rfl, rfl, rfl, rfl, rfl, rfl⟩

/-- Witness for C8: executing `action-001` on the mock list turns exactly
the first action's status into `in-progress`, and leaves the second one
(different id) unchanged. -/
theorem handleExecuteAction_pointwise_witness :
    mockActions[0]?.map (fun action => action.id) = some "action-001"
    ∧ (handleExecuteAction mockActions "action-001")[0]? =
        some { id := "action-001", status := "in-progress",
               issue := "High CPU usage on node kagent-cluster-worker",
               description := "CPU usage at 92%, exceeding threshold of 80%",
               severity := "critical", timestamp := "2025-05-12T12:40:00Z",
               resource := "kagent-cluster-worker", resourceType := "Node",
               remediation := "Evict non-critical pods to reduce load",
               autoRemediate := true }
    ∧ (handleExecuteAction mockActions "action-001")[1]? = mockActions[1]? := by
  refine ⟨rfl, ?_, ?_⟩
  · exact (handleExecuteAction_pointwise mockActions "action-001").2.1 0
      { id := "action-001", status := "pending",
        issue := "High CPU usage on node kagent-cluster-worker",
        description := "CPU usage at 92%, exceeding threshold of 80%",
        severity := "critical", timestamp := "2025-05-12T12:40:00Z",
        resource := "kagent-cluster-worker", resourceType := "Node",
        remediation := "Evict non-critical pods to reduce load",
        autoRemediate := true } rfl rfl
  · exact (handleExecuteAction_pointwise mockActions "action-001").2.2.1 1
      { id := "action-002", status := "completed",
        issue := "Memory pressure on node kagent-cluster-worker2",
        description := "Memory usage at 85%, exceeding threshold of 80%",
        severity := "high", timestamp := "2025-05-12T12:35:00Z",
        resource := "kagent-cluster-worker2", resourceType := "Node",
        remediation := "Evicted pods with lower priority", autoRemediate := true,
        executedAt := some "2025-05-12T12:36:00Z", result := some "success",
        details := some "Evicted 3 pods to reduce memory pressure" } rfl (by decide)

/-- Translation of `BackupManager.handleSelectResource`: if some selected
entry matches the resource's name and kind, remove all matching entries,
otherwise append the resource. -/
def handleSelectResource (selectedResources : List Resource) (resource : Resource) :
    List Resource :=
  if selectedResources.any (fun r => r.name == resource.name && r.kind == resource.kind) then
    selectedResources.filter (fun r => !(r.name == resource.name && r.kind == resource.kind))
  else
    selectedResources ++ [resource]

/-- Key of a resource as used by the selection logic: its (kind, name) pair. -/
def resourceKey (r : Resource) : String × String := (r.kind, r.name)

theorem match_true_iff (resource x : Resource) :
    (x.name == resource.name && x.kind == resource.kind) = true ↔
      resourceKey x = resourceKey resource := by
  simp only [Bool.and_eq_true, beq_iff_eq, resourceKey, Prod.mk.injEq]
  exact and_comm

theorem perm_filter_match :
    ∀ (l : List Resource) (resource : Resource), (l.map resourceKey).Nodup →
      resourceKey resource ∈ l.map resourceKey →
      (((l.filter (fun r => !(r.name == resource.name && r.kind == resource.kind))).map
          resourceKey) ++ [resourceKey resource]).Perm (l.map resourceKey) := by
  intro l resource
  induction l with
  | nil => intro _ h; simp at h
  | cons a t ih =>
    intro hnd hmem
    simp only [List.map_cons, List.nodup_cons] at hnd
    obtain ⟨ha, hndt⟩ := hnd
    by_cases hk : resourceKey a = resourceKey resource
    · have hpa : (a.name == resource.name && a.kind == resource.kind) = true :=
        (match_true_iff resource a).mpr hk
      have hfilter_t :
          t.filter (fun r => !(r.name == resource.name && r.kind == resource.kind)) = t := by
        apply List.filter_eq_self.mpr
        intro x hx
        have hne : ¬ resourceKey x = resourceKey resource := by
          intro hxk
          exact ha (List.mem_map.mpr ⟨x, hx, hxk.trans hk.symm⟩)
        have : (x.name == resource.name && x.kind == resource.kind) = false := by
          cases hcase : (x.name == resource.name && x.kind == resource.kind) with
          | false => rfl
          | true => exact absurd ((match_true_iff resource x).mp hcase) hne
        simp [this]
      rw [List.filter_cons_of_neg (by simp [hpa]), hfilter_t, ← hk]
      exact List.perm_append_singleton _ _
    · have hpa : (a.name == resource.name && a.kind == resource.kind) = false := by
        cases hcase : (a.name == resource.name && a.kind == resource.kind) with
        | false => rfl
        | true => exact absurd ((match_true_iff resource a).mp hcase) hk
      have hmem' : resourceKey resource ∈ t.map resourceKey := by
        rcases List.mem_cons.mp hmem with h | h
        · exact absurd h.symm hk
        · exact h
      rw [List.filter_cons_of_pos (by simp [hpa])]
      simp only [List.map_cons, List.cons_append]
      exact List.Perm.cons _ (ih hndt hmem')

/-- C9: `handleSelectResource` toggles membership of a
resource keyed by its (kind, name) pair: one application removes the
resource when some selected entry matches its kind and name and appends it
otherwise, and on every selection whose (kind, name) keys contain no
duplicates, applying it twice with the same resource yields a selection
whose (kind, name) keys are a permutation of the original ones. -/
theorem handleSelectResource_toggle :
    ∀ (selectedResources : List Resource) (resource : Resource),
      (selectedResources.any
          (fun r => r.name == resource.name && r.kind == resource.kind) = true →
        handleSelectResource selectedResources resource =
          selectedResources.filter
            (fun r => !(r.name == resource.name && r.kind == resource.kind)))
      ∧ (selectedResources.any
          (fun r => r.name == resource.name && r.kind == resource.kind) = false →
        handleSelectResource selectedResources resource = selectedResources ++ [resource])
      ∧ ((selectedResources.map resourceKey).Nodup →
        ((handleSelectResource (handleSelectResource selectedResources resource)
            resource).map resourceKey).Perm (selectedResources.map resourceKey)) := by
  intro selectedResources resource
  refine ⟨fun h => by simp [handleSelectResource, h], fun h => by simp [handleSelectResource, h], ?_⟩
  intro hnd
  cases hany : selectedResources.any
      (fun r => r.name == resource.name && r.kind == resource.kind) with
  | false =>
    have h1 : handleSelectResource selectedResources resource =
        selectedResources ++ [resource] := by
      simp [handleSelectResource, hany]
    have hany2 : (selectedResources ++ [resource]).any
        (fun r => r.name == resource.name && r.kind == resource.kind) = true := by
      simp
    have h2 : handleSelectResource (selectedResources ++ [resource]) resource =
        (selectedResources ++ [resource]).filter
          (fun r => !(r.name == resource.name && r.kind == resource.kind)) := by
      simp [handleSelectResource, hany2]
    have hsel : selectedResources.filter
        (fun r => !(r.name == resource.name && r.kind == resource.kind)) =
        selectedResources := by
      apply List.filter_eq_self.mpr
      intro x hx
      have : (x.name == resource.name && x.kind == resource.kind) = false := by
        cases hcase : (x.name == resource.name && x.kind == resource.kind) with
        | false => rfl
        | true =>
          have : selectedResources.any
              (fun r => r.name == resource.name && r.kind == resource.kind) = true :=
            List.any_eq_true.mpr ⟨x, hx, hcase⟩
          rw [hany] at this
          exact absurd this (by simp)
      simp [this]
    rw [h1, h2, List.filter_append, hsel]
    simp
  | true =>
    have h1 : handleSelectResource selectedResources resource =
        selectedResources.filter
          (fun r => !(r.name == resource.name && r.kind == resource.kind)) := by
      simp [handleSelectResource, hany]
    have hany' : (selectedResources.filter
        (fun r => !(r.name == resource.name && r.kind == resource.kind))).any
        (fun r => r.name == resource.name && r.kind == resource.kind) = false := by
      rw [List.any_eq_false]
      intro x hx
      have hcond := (List.mem_filter.mp hx).2
      simp only [Bool.not_eq_true'] at hcond
      simp [hcond]
    have h2 : handleSelectResource (selectedResources.filter
        (fun r => !(r.name == resource.name && r.kind == resource.kind))) resource =
        (selectedResources.filter
          (fun r => !(r.name == resource.name && r.kind == resource.kind))) ++ [resource] := by
      unfold handleSelectResource
      rw [if_neg (by rw [hany']; exact Bool.false_ne_true)]
    have hmem : resourceKey resource ∈ selectedResources.map resourceKey := by
      obtain ⟨x, hx, hpx⟩ := List.any_eq_true.mp hany
      exact List.mem_map.mpr ⟨x, hx, (match_true_iff resource x).mp hpx⟩
    rw [h1, h2, List.map_append]
    exact perm_filter_match selectedResources resource hnd hmem

/-- Witness for C9: toggling the Deployment nginx-test resource twice on the
mock selection (whose keys are duplicate-free) permutes back to the original
keys, and one application on the mock selection removes it. -/
theorem handleSelectResource_toggle_witness :
    (mockSelectedResources.map resourceKey).Nodup
    ∧ ((handleSelectResource (handleSelectResource mockSelectedResources
          { kind := "Deployment", name := "nginx-test", «namespace» := "default" })
          { kind := "Deployment", name := "nginx-test", «namespace» := "default" }).map
        resourceKey).Perm (mockSelectedResources.map resourceKey) :=
  ⟨by decide,
   (handleSelectResource_toggle mockSelectedResources
      { kind := "Deployment", name := "nginx-test", «namespace» := "default" }).2.2 (by decide)⟩

/-- Node entry of the `/predictor/metrics` response; only the fields read by
the Dashboard cluster-status computation are modelled. -/
structure NodeData where
  cpu_usage : ℚ
  memory_usage : ℚ
deriving DecidableEq, Repr

/-- Pod entry of the `/predictor/metrics` response; the Dashboard only
counts the keys. -/
structure PodData where
  cpu_usage : ℚ
  memory_usage : ℚ
  restarts : Nat
deriving DecidableEq, Repr

/-- Shape of the `/predictor/metrics` response consumed by the Dashboard:
`nodes` and `pods` are JSON objects, modelled as association lists. -/
structure Metrics where
  nodes : List (String × NodeData)
  pods : List (String × PodData)
deriving DecidableEq, Repr

/-- Cluster status view state assembled by `Dashboard.fetchClusterStatus`. -/
structure ClusterStatus where
  status : String
  name : String
  nodes : Nat
  pods : Nat
  cpuUsage : ℤ
  memoryUsage : ℤ
  uptime : String
deriving DecidableEq, Repr

/-- Translation of the `totalCpu` accumulation loop of
`Dashboard.fetchClusterStatus` (`Object.values(metrics.nodes).forEach`). -/
def totalNodeCpu (metrics : Metrics) : ℚ :=
  metrics.nodes.foldl (fun acc kv => acc + kv.2.cpu_usage) 0

/-- Translation of the `totalMemory` accumulation loop of
`Dashboard.fetchClusterStatus`. -/
def totalNodeMemory (metrics : Metrics) : ℚ :=
  metrics.nodes.foldl (fun acc kv => acc + kv.2.memory_usage) 0

/-- Translation of the cluster-status assembly of
`Dashboard.fetchClusterStatus`.  The JavaScript divides by the node count
with no guard; in this exact-rational embedding division by zero yields `0`
where JavaScript yields `NaN` (see the total embedding `clusterAverages`
used by the safety analysis). -/
def mkClusterStatus (metrics : Metrics) : ClusterStatus :=
  { status := "running", name := "kagent-cluster",
    nodes := metrics.nodes.length, pods := metrics.pods.length,
    cpuUsage := jsRound (totalNodeCpu metrics / (metrics.nodes.length : ℚ)),
    memoryUsage := jsRound (totalNodeMemory metrics / (metrics.nodes.length : ℚ)),
    uptime := "2d 5h" }

/-- Issue entry of the `/predictor/predictions` response; `description` is
present in the payload but dropped by the Dashboard projection. -/
structure PredictionIssue where
  id : String
  type : String
  component : String
  severity : String
  timestamp : ℤ
  description : String
deriving DecidableEq, Repr

/-- Issue as bound to the Dashboard view state (the five projected fields). -/
structure DashboardIssue where
  id : String
  type : String
  component : String
  severity : String
  timestamp : ℤ
deriving DecidableEq, Repr

/-- Translation of the `formattedIssues` projection of `Dashboard.fetchIssues`. -/
def formatIssue (issue : PredictionIssue) : DashboardIssue :=
  { id := issue.id, type := issue.type, component := issue.component,
    severity := issue.severity, timestamp := issue.timestamp }

/-- Shape of the `/predictor/predictions` response consumed by the Dashboard. -/
structure Predictions where
  issues : List PredictionIssue
  confidence : ℚ
deriving DecidableEq, Repr

/-- Shape of the `/security/scan/results` response; the Dashboard defaults
each count with `|| 0`, modelled by optional fields. -/
structure ScanResults where
  vulnerabilities : Option Nat
  misconfigurations : Option Nat
  compliance_issues : Option Nat
deriving DecidableEq, Repr

/-- Security summary view state assembled by `Dashboard.fetchSecurityIssues`. -/
structure SecuritySummary where
  vulnerabilities : Nat
  misconfigurations : Nat
  compliance : Nat
deriving DecidableEq, Repr

/-- Translation of the summary assembly of `Dashboard.fetchSecurityIssues`. -/
def mkSecuritySummary (securityData : ScanResults) : SecuritySummary :=
  { vulnerabilities := securityData.vulnerabilities.getD 0,
    misconfigurations := securityData.misconfigurations.getD 0,
    compliance := securityData.compliance_issues.getD 0 }

/-- Shape of the `/cost/analysis` response; the Dashboard defaults each
field with `|| 0`. -/
structure CostAnalysis where
  monthlyCost : Option ℚ
  potentialSavings : Option ℚ
  efficiency : Option ℚ
deriving DecidableEq, Repr

/-- Cost summary view state assembled by `Dashboard.fetchCostOptimization`. -/
structure CostSummary where
  monthlyCost : ℚ
  potentialSavings : ℚ
  efficiency : ℚ
deriving DecidableEq, Repr

/-- Translation of the summary assembly of `Dashboard.fetchCostOptimization`. -/
def mkCostSummary (costData : CostAnalysis) : CostSummary :=
  { monthlyCost := costData.monthlyCost.getD 0,
    potentialSavings := costData.potentialSavings.getD 0,
    efficiency := costData.efficiency.getD 0 }

/-- Backup entry of the `/backup/list` response as used by the Dashboard;
`timestamp` is modelled as the parsed epoch value in milliseconds
(`new Date(...).getTime()`). -/
structure ApiBackup where
  id : String
  name : String
  timestamp : ℤ
deriving DecidableEq, Repr

/-- Shape of the `/backup/schedule` response; the `.catch` fallback of
`Dashboard.fetchBackupStatus` already yields `enabled = false` with no
`nextBackup`, so the schedule value itself is always available. -/
structure BackupSchedule where
  enabled : Bool
  nextBackup : Option ℤ
deriving DecidableEq, Repr

/-- Backup summary view state assembled by `Dashboard.fetchBackupStatus`. -/
structure BackupStatusSummary where
  lastBackup : ℤ
  totalBackups : Nat
  scheduled : Bool
  nextBackup : ℤ
deriving DecidableEq, Repr

/-- Translation of the summary assembly of `Dashboard.fetchBackupStatus`;
`now` models `Date.now()`. -/
def mkBackupStatus (now : ℤ) (backups : List ApiBackup) (schedule : BackupSchedule) :
    BackupStatusSummary :=
  { lastBackup := match backups with
      | [] => now - 86400000
      | b :: _ => b.timestamp,
    totalBackups := backups.length,
    scheduled := schedule.enabled,
    nextBackup := match schedule.nextBackup with
      | some t => t
      | none => now + 3600000 }

/-- View state of the Dashboard page: the five data states, the five
loading flags and the five error entries (`useState` hooks of the
`Dashboard` component). -/
structure DashboardState where
  clusterStatus : Option ClusterStatus
  issues : List DashboardIssue
  securityIssues : Option SecuritySummary
  costOptimization : Option CostSummary
  backupStatus : Option BackupStatusSummary
  loadingCluster : Bool
  loadingIssues : Bool
  loadingSecurity : Bool
  loadingCost : Bool
  loadingBackup : Bool
  errorCluster : Option String
  errorIssues : Option String
  errorSecurity : Option String
  errorCost : Option String
  errorBackup : Option String
deriving Repr

/-- Translation of `Dashboard.fetchClusterStatus` as a state transition on
the outcome of its single request: try/catch/finally over one
`predictorService.getMetrics()` call. -/
def fetchClusterStatus (s : DashboardState) (result : Except Unit Metrics) : DashboardState :=
  match result with
  | .ok metrics =>
      { s with clusterStatus := some (mkClusterStatus metrics),
               errorCluster := none, loadingCluster := false }
  | .error _ =>
      { s with errorCluster := some "Failed to load cluster status", loadingCluster := false }

/-- Translation of `Dashboard.fetchIssues` as a state transition on the
outcome of its single `predictorService.getPredictions()` call. -/
def fetchIssues (s : DashboardState) (result : Except Unit Predictions) : DashboardState :=
  match result with
  | .ok predictions =>
      { s with issues := predictions.issues.map formatIssue,
               errorIssues := none, loadingIssues := false }
  | .error _ =>
      { s with errorIssues := some "Failed to load issues", loadingIssues := false }

/-- Translation of `Dashboard.fetchSecurityIssues` as a state transition on
the outcome of its single `securityService.getScanResults()` call. -/
def fetchSecurityIssues (s : DashboardState) (result : Except Unit ScanResults) : DashboardState :=
  match result with
  | .ok securityData =>
      { s with securityIssues := some (mkSecuritySummary securityData),
               errorSecurity := none, loadingSecurity := false }
  | .error _ =>
      { s with errorSecurity := some "Failed to load security data", loadingSecurity := false }

/-- Translation of `Dashboard.fetchCostOptimization` as a state transition
on the outcome of its single `costService.getCostAnalysis()` call. -/
def fetchCostOptimization (s : DashboardState) (result : Except Unit CostAnalysis) : DashboardState :=
  match result with
  | .ok costData =>
      { s with costOptimization := some (mkCostSummary costData),
               errorCost := none, loadingCost := false }
  | .error _ =>
      { s with errorCost := some "Failed to load cost data", loadingCost := false }

/-- Translation of `Dashboard.fetchBackupStatus` as a state transition on
the outcome of its backup-list request (the schedule request never rejects
thanks to its inline `.catch` fallback, so it is part of the payload). -/
def fetchBackupStatus (now : ℤ) (s : DashboardState)
    (result : Except Unit (List ApiBackup × BackupSchedule)) : DashboardState :=
  match result with
  | .ok (backups, schedule) =>
      { s with backupStatus := some (mkBackupStatus now backups schedule),
               errorBackup := none, loadingBackup := false }
  | .error _ =>
      { s with errorBackup := some "Failed to load backup data", loadingBackup := false }

/-- Frame condition: everything except the cluster entry is unchanged. -/
abbrev frameExceptCluster (s t : DashboardState) : Prop :=
  t.issues = s.issues ∧ t.securityIssues = s.securityIssues
  ∧ t.costOptimization = s.costOptimization ∧ t.backupStatus = s.backupStatus
  ∧ t.errorIssues = s.errorIssues ∧ t.errorSecurity = s.errorSecurity
  ∧ t.errorCost = s.errorCost ∧ t.errorBackup = s.errorBackup

/-- Frame condition: everything except the issues entry is unchanged. -/
abbrev frameExceptIssues (s t : DashboardState) : Prop :=
  t.clusterStatus = s.clusterStatus ∧ t.securityIssues = s.securityIssues
  ∧ t.costOptimization = s.costOptimization ∧ t.backupStatus = s.backupStatus
  ∧ t.errorCluster = s.errorCluster ∧ t.errorSecurity = s.errorSecurity
  ∧ t.errorCost = s.errorCost ∧ t.errorBackup = s.errorBackup

/-- Frame condition: everything except the security entry is unchanged. -/
abbrev frameExceptSecurity (s t : DashboardState) : Prop :=
  t.clusterStatus = s.clusterStatus ∧ t.issues = s.issues
  ∧ t.costOptimization = s.costOptimization ∧ t.backupStatus = s.backupStatus
  ∧ t.errorCluster = s.errorCluster ∧ t.errorIssues = s.errorIssues
  ∧ t.errorCost = s.errorCost ∧ t.errorBackup = s.errorBackup

/-- Frame condition: everything except the cost entry is unchanged. -/
abbrev frameExceptCost (s t : DashboardState) : Prop :=
  t.clusterStatus = s.clusterStatus ∧ t.issues = s.issues
  ∧ t.securityIssues = s.securityIssues ∧ t.backupStatus = s.backupStatus
  ∧ t.errorCluster = s.errorCluster ∧ t.errorIssues = s.errorIssues
  ∧ t.errorSecurity = s.errorSecurity ∧ t.errorBackup = s.errorBackup

/-- Frame condition: everything except the backup entry is unchanged. -/
abbrev frameExceptBackup (s t : DashboardState) : Prop :=
  t.clusterStatus = s.clusterStatus ∧ t.issues = s.issues
  ∧ t.securityIssues = s.securityIssues ∧ t.costOptimization = s.costOptimization
  ∧ t.errorCluster = s.errorCluster ∧ t.errorIssues = s.errorIssues
  ∧ t.errorSecurity = s.errorSecurity ∧ t.errorCost = s.errorCost

/-- C3: Dashboard failures are handled per fetch.  For each of the five
fetches, a throwing request sets only that fetch's error entry to its fixed
display string and clears only that fetch's loading flag, leaving the other
four error entries and the other four data states (and even its own data
state) unchanged; a successful request resets that error entry to null.
Each transition consumes the outcome of a single request: no retry exists
in the model. -/
theorem dashboard_per_fetch_isolation :
    ∀ s : DashboardState,
      ((∀ metrics, (fetchClusterStatus s (.ok metrics)).errorCluster = none
          ∧ (fetchClusterStatus s (.ok metrics)).loadingCluster = false
          ∧ (fetchClusterStatus s (.ok metrics)).clusterStatus = some (mkClusterStatus metrics)
          ∧ frameExceptCluster s (fetchClusterStatus s (.ok metrics)))
        ∧ (fetchClusterStatus s (.error ())).errorCluster = some "Failed to load cluster status"
        ∧ (fetchClusterStatus s (.error ())).loadingCluster = false
        ∧ (fetchClusterStatus s (.error ())).clusterStatus = s.clusterStatus
        ∧ frameExceptCluster s (fetchClusterStatus s (.error ())))
      ∧ ((∀ predictions, (fetchIssues s (.ok predictions)).errorIssues = none
          ∧ (fetchIssues s (.ok predictions)).loadingIssues = false
          ∧ (fetchIssues s (.ok predictions)).issues = predictions.issues.map formatIssue
          ∧ frameExceptIssues s (fetchIssues s (.ok predictions)))
        ∧ (fetchIssues s (.error ())).errorIssues = some "Failed to load issues"
        ∧ (fetchIssues s (.error ())).loadingIssues = false
        ∧ (fetchIssues s (.error ())).issues = s.issues
        ∧ frameExceptIssues s (fetchIssues s (.error ())))
      ∧ ((∀ securityData, (fetchSecurityIssues s (.ok securityData)).errorSecurity = none
          ∧ (fetchSecurityIssues s (.ok securityData)).loadingSecurity = false
          ∧ (fetchSecurityIssues s (.ok securityData)).securityIssues =
              some (mkSecuritySummary securityData)
          ∧ frameExceptSecurity s (fetchSecurityIssues s (.ok securityData)))
        ∧ (fetchSecurityIssues s (.error ())).errorSecurity = some "Failed to load security data"
        ∧ (fetchSecurityIssues s (.error ())).loadingSecurity = false
        ∧ (fetchSecurityIssues s (.error ())).securityIssues = s.securityIssues
        ∧ frameExceptSecurity s (fetchSecurityIssues s (.error ())))
      ∧ ((∀ costData, (fetchCostOptimization s (.ok costData)).errorCost = none
          ∧ (fetchCostOptimization s (.ok costData)).loadingCost = false
          ∧ (fetchCostOptimization s (.ok costData)).costOptimization =
              some (mkCostSummary costData)
          ∧ frameExceptCost s (fetchCostOptimization s (.ok costData)))
        ∧ (fetchCostOptimization s (.error ())).errorCost = some "Failed to load cost data"
        ∧ (fetchCostOptimization s (.error ())).loadingCost = false
        ∧ (fetchCostOptimization s (.error ())).costOptimization = s.costOptimization
        ∧ frameExceptCost s (fetchCostOptimization s (.error ())))
      ∧ ((∀ (now : ℤ) backups schedule,
            (fetchBackupStatus now s (.ok (backups, schedule))).errorBackup = none
          ∧ (fetchBackupStatus now s (.ok (backups, schedule))).loadingBackup = false
          ∧ (fetchBackupStatus now s (.ok (backups, schedule))).backupStatus =
              some (mkBackupStatus now backups schedule)
          ∧ frameExceptBackup s (fetchBackupStatus now s (.ok (backups, schedule))))
        ∧ (∀ (now : ℤ),
            (fetchBackupStatus now s (.error ())).errorBackup = some "Failed to load backup data"
          ∧ (fetchBackupStatus now s (.error ())).loadingBackup = false
          ∧ (fetchBackupStatus now s (.error ())).backupStatus = s.backupStatus
          ∧ frameExceptBackup s (fetchBackupStatus now s (.error ())))) :=
  fun _ =>
    ⟨⟨fun _ => ⟨rfl, rfl, rfl, rfl, rfl, rfl, rfl, rfl, rfl, rfl, rfl⟩,
      rfl, rfl, rfl, rfl, rfl, rfl, rfl, rfl, rfl, rfl, rfl⟩,
     ⟨fun _ => ⟨rfl, rfl, rfl, rfl, rfl, rfl, rfl, rfl, rfl, rfl, rfl⟩,
      rfl, rfl, rfl, rfl, rfl, rfl, rfl, rfl, rfl, rfl, rfl⟩,
     ⟨fun _ => ⟨rfl, rfl, rfl, rfl, rfl, rfl, rfl, rfl, rfl, rfl, rfl⟩,
      rfl, rfl, rfl, rfl, rfl, rfl, rfl, rfl, rfl, rfl, rfl⟩,
     ⟨fun _ => ⟨rfl, rfl, rfl, rfl, rfl, rfl, rfl, rfl, rfl, rfl, rfl⟩,
      rfl, rfl, rfl, rfl, rfl, rfl, rfl, rfl, rfl, rfl, rfl⟩,
     ⟨fun _ _ _ => ⟨rfl, rfl, rfl, rfl, rfl, rfl, rfl, rfl, rfl, rfl, rfl⟩,
      fun _ => ⟨rfl, rfl, rfl, rfl, rfl, rfl, rfl, rfl, rfl, rfl, rfl⟩⟩⟩

/-- HTTP method of a client request. -/
inductive HttpMethod where
  | get
  | post
  | put
  | delete
deriving DecidableEq, Repr

/-- A single HTTP request as issued through the shared axios instance. -/
structure ApiRequest where
  method : HttpMethod
  path : String
deriving DecidableEq, Repr

/-- Axios-style response envelope; the wrappers only ever read `data`. -/
structure ApiResponse (α : Type) where
  data : α
  status : Nat

/-- A thin REST client function: the one HTTP request it performs together
with what it does to the response before returning. -/
structure ClientCall (α : Type) where
  request : ApiRequest
  extract : ApiResponse α → α

/-- Translation of `securityService.getVulnerabilities`
(`securityService.js` lines 17-20): one GET to
`/security/vulnerabilities?severity=...` returning `response.data`, with the
severity defaulting to `all`. -/
def securityService.getVulnerabilities (α : Type) (severity : String := "all") : ClientCall α :=
  { request := { method := .get, path := "/security/vulnerabilities?severity=" ++ severity },
    extract := fun response => response.data }

/-- Translation of `predictorService.getHistoricalMetrics`
(`predictorService.js` lines 17-20): one GET to
`/predictor/metrics/history?timespan=...` returning `response.data`, with
the timespan defaulting to `24h`. -/
def predictorService.getHistoricalMetrics (α : Type) (timespan : String := "24h") : ClientCall α :=
  { request := { method := .get, path := "/predictor/metrics/history?timespan=" ++ timespan },
    extract := fun response => response.data }

/-- C5: each REST client function is a thin wrapper performing exactly one
HTTP request to its documented path and returning the parsed response body
unchanged.  For every severity `getVulnerabilities` is a single GET to
`/security/vulnerabilities?severity=` followed by the severity, returning
`response.data`, defaulting the severity to `all` when omitted; for every
timespan `getHistoricalMetrics` is a single GET to
`/predictor/metrics/history?timespan=` followed by the timespan, returning
`response.data`, defaulting the timespan to `24h` when omitted. -/
theorem rest_client_thin_wrappers :
    (∀ (α : Type) (severity : String),
        (securityService.getVulnerabilities α severity).request =
          { method := HttpMethod.get,
            path := "/security/vulnerabilities?severity=" ++ severity }
        ∧ ∀ response : ApiResponse α,
            (securityService.getVulnerabilities α severity).extract response = response.data)
    ∧ (∀ α : Type,
        securityService.getVulnerabilities α = securityService.getVulnerabilities α "all")
    ∧ (∀ (α : Type) (timespan : String),
        (predictorService.getHistoricalMetrics α timespan).request =
          { method := HttpMethod.get,
            path := "/predictor/metrics/history?timespan=" ++ timespan }
        ∧ ∀ response : ApiResponse α,
            (predictorService.getHistoricalMetrics α timespan).extract response = response.data)
    ∧ (∀ α : Type,
        predictorService.getHistoricalMetrics α = predictorService.getHistoricalMetrics α "24h") :=
  ⟨fun _ _ => ⟨rfl, fun _ => rfl⟩, fun _ => rfl,
   fun _ _ => ⟨rfl, fun _ => rfl⟩, fun _ => rfl⟩

/-- An asynchronous operation created by a page component: a one-shot HTTP
request, a one-shot `setTimeout` with a fixed delay, or a repeating
`setInterval` with a fixed period. -/
inductive AsyncOp where
  | request (method : HttpMethod) (path : String)
  | timeout (delayMs : Nat)
  | interval (periodMs : Nat)
deriving DecidableEq, Repr

/-- An operation is one-shot when it is a network request or a fixed-delay
timer, but not a repeating interval. -/
def AsyncOp.isOneShot : AsyncOp → Bool
  | .request _ _ => true
  | .timeout _ => true
  | .interval _ => false

/-- Asynchronous operations created by the Dashboard page: the five mount
fetches (the backup one issuing two requests) and the three quick-action
requests; all one-shot requests. -/
def dashboardOps : List AsyncOp :=
  [ .request .get "/predictor/metrics",
    .request .get "/predictor/predictions",
    .request .get "/security/scan/results",
    .request .get "/cost/analysis",
    .request .get "/backup/list",
    .request .get "/backup/schedule",
    .request .post "/security/scan/start",
    .request .post "/backup/create",
    .request .post "/predictor/model/train" ]

/-- Asynchronous operations created by the Predictor page: the mount
fetches, the `setInterval(fetchMetrics, 30000)` refresh of the metrics
effect, the three refresh requests, the training request and the 5000 ms
model-info refresh timer. -/
def predictorAgentOps : List AsyncOp :=
  [ .request .get "/predictor/metrics",
    .interval 30000,
    .request .get "/predictor/predictions",
    .request .get "/predictor/model/info",
    .request .get "/predictor/metrics",
    .request .get "/predictor/predictions",
    .request .get "/predictor/model/info",
    .request .post "/predictor/model/train",
    .timeout 5000,
    .request .get "/predictor/model/info" ]

/-- Asynchronous operations of the Security Scanner page: its mock timer. -/
def securityScannerOps : List AsyncOp := [.timeout 1000]

/-- Asynchronous operations of the Cost Optimizer page: its mock timer. -/
def costOptimizerOps : List AsyncOp := [.timeout 1000]

/-- Asynchronous operations of the Backup Manager page: its mock timer. -/
def backupManagerOps : List AsyncOp := [.timeout 1000]

/-- Asynchronous operations of the Remediator page: the mock timer and the
2000 ms action-completion timer of `handleExecuteAction`. -/
def remediatorAgentOps : List AsyncOp := [.timeout 1000, .timeout 2000]

/-- Asynchronous operations of the Settings page: the mock load timer and
the simulated save timer. -/
def settingsPageOps : List AsyncOp := [.timeout 1000, .timeout 1000]

/-- All asynchronous operations created by the page components. -/
def allPageOps : List AsyncOp :=
  dashboardOps ++ predictorAgentOps ++ securityScannerOps ++ costOptimizerOps
    ++ backupManagerOps ++ remediatorAgentOps ++ settingsPageOps

/-- Counterexample to C6 as stated: the Predictor page's metrics effect
creates the repeating timer `setInterval(fetchMetrics, 30000)`, so not every
asynchronous operation created by the pages is one-shot. -/
theorem async_ops_repeating_interval_exists :
    AsyncOp.interval 30000 ∈ predictorAgentOps
    ∧ AsyncOp.isOneShot (AsyncOp.interval 30000) = false
    ∧ ¬ allPageOps.all AsyncOp.isOneShot = true := by decide

/-- C6 (amended): every asynchronous operation created by the pages is a
one-shot network request or a fixed-delay timer, except the single
repeating 30000 ms metrics-refresh interval, which only the Predictor page
creates; every operation of the six other pages is one-shot. -/
theorem async_ops_classification :
    allPageOps.all (fun op => op.isOneShot || op == AsyncOp.interval 30000) = true
    ∧ (dashboardOps ++ securityScannerOps ++ costOptimizerOps ++ backupManagerOps
        ++ remediatorAgentOps ++ settingsPageOps).all AsyncOp.isOneShot = true
    ∧ AsyncOp.interval 30000 ∈ predictorAgentOps := by decide

/-- Total embedding, in the claim's sense, of the Dashboard average
computation of `fetchClusterStatus`: the `none` branch is the error branch
for the unguarded division by the node count. -/
def clusterAverages (metrics : Metrics) : Option (ℤ × ℤ) :=
  if metrics.nodes.length = 0 then none
  else some (jsRound (totalNodeCpu metrics / (metrics.nodes.length : ℚ)),
             jsRound (totalNodeMemory metrics / (metrics.nodes.length : ℚ)))

/-- C10: the Dashboard cluster-status averages are well-defined only for a
non-empty `metrics.nodes` object: the error branch of the total embedding
is taken exactly on an empty nodes object, and whenever at least one node is
present the embedding agrees with the unguarded source computation of
`mkClusterStatus`. -/
theorem clusterAverages_empty_guard :
    (∀ metrics : Metrics, clusterAverages metrics = none ↔ metrics.nodes = [])
    ∧ (∀ metrics : Metrics, metrics.nodes ≠ [] →
        clusterAverages metrics =
          some ((mkClusterStatus metrics).cpuUsage, (mkClusterStatus metrics).memoryUsage)) := by
  constructor
  · intro metrics
    cases h : metrics.nodes with
    | nil => simp [clusterAverages, h]
    | cons a t => simp [clusterAverages, h]
  · intro metrics h
    unfold clusterAverages
    rw [if_neg (by simpa [List.length_eq_zero] using h)]
    rfl

/-- Witness for C10 at a one-node metrics response: the nodes object is
non-empty and the total embedding returns the source averages. -/
theorem clusterAverages_empty_guard_witness :
    (Metrics.mk [("kagent-cluster-control-plane",
        { cpu_usage := 45, memory_usage := 60 })] []).nodes ≠ []
    ∧ clusterAverages (Metrics.mk [("kagent-cluster-control-plane",
        { cpu_usage := 45, memory_usage := 60 })] []) =
      some ((mkClusterStatus (Metrics.mk [("kagent-cluster-control-plane",
          { cpu_usage := 45, memory_usage := 60 })] [])).cpuUsage,
        (mkClusterStatus (Metrics.mk [("kagent-cluster-control-plane",
          { cpu_usage := 45, memory_usage := 60 })] [])).memoryUsage) :=
  ⟨by simp,
   (clusterAverages_empty_guard.2 (Metrics.mk [("kagent-cluster-control-plane",
      { cpu_usage := 45, memory_usage := 60 })] []) (by simp))⟩
